import Mathlib

/-!
Verification development for the HTML viewer script (src/app.py).

The script is a single top-level program that re-executes on every user
interaction cycle.  We shallowly embed it as pure Lean functions:

* the helper functions (read_text, find_free_port, start/stop of the
  static server) become functions over explicit effect results, with
  Python exceptions modelled by an Except monad over a PyErr type;
* the per-cycle top-level logic becomes a function runCycle from a
  World (filesystem snapshot plus OS responses), an Input (the widget
  values of the cycle) and the persisted Session state to a CycleOut
  record holding the new session state, the updated filesystem, the
  server lifecycle events of the cycle, and the user-visible outputs.

Filesystem paths are modelled as lists of components (root to leaf);
the string form str(p) used by the script is injective on paths, so
comparing paths componentwise models comparing their string forms.
Uploaded filenames are modelled as single path components.
-/

/-- Python exception classes that the script can see. -/
inductive PyErr where
  | osError
  | unicodeDecodeError
  | other
deriving DecidableEq, Repr

/-- Result of one effectful Python operation. -/
abbrev PyRes (a : Type) := Except PyErr a

/-- An `except OSError: pass` wrapper: OSError is swallowed, anything
else propagates.  Mirrors the try/except blocks at app.py lines 70-77. -/
def catchOS (r : PyRes Unit) : PyRes Unit :=
  match r with
  | .error .osError => .ok ()
  | r => r

/-- The socket operations performed by find_free_port (app.py lines
39-42): a bind call that may raise, and the port the OS reports. -/
structure SocketOps where
  bindRes : PyRes Unit
  portAssigned : Nat

/-- Model of find_free_port (app.py lines 39-42).  The bind call is not
wrapped in any try/except, so a bind error propagates to the caller. -/
def find_free_port (ops : SocketOps) : PyRes Nat := do
  let _ ← ops.bindRes
  pure ops.portAssigned

/-- The effectful operations performed by start_static_server (app.py
lines 51-65): os.chdir, the TCPServer constructor (which binds the
listening socket and yields the server handle, identified by a Nat),
and the result of the serve_forever loop run in the background thread. -/
structure ServerOps where
  chdirRes : PyRes Unit
  tcpServerRes : PyRes Nat
  serveLoopRes : PyRes Unit

/-- Model of start_static_server (app.py lines 51-65), foreground part:
chdir then construct the server.  Neither call is wrapped in a
try/except, so errors propagate to the caller; only the serve loop
inside the spawned thread has a handler. -/
def start_static_server (ops : ServerOps) : PyRes Nat := do
  let _ ← ops.chdirRes
  ops.tcpServerRes

/-- Model of the serve closure run in the background thread (app.py
lines 57-61): serve_forever with OSError swallowed. -/
def serve_thread (ops : ServerOps) : PyRes Unit :=
  catchOS ops.serveLoopRes

/-- The effectful operations performed by stop_static_server on a
non-None handle: shutdown and server_close, each of which may raise. -/
structure StopOps where
  shutdownRes : PyRes Unit
  closeRes : PyRes Unit

/-- Model of stop_static_server (app.py lines 68-77): on None it does
nothing; otherwise shutdown then server_close, each wrapped in its own
`except OSError: pass`. -/
def stop_static_server (srv : Option Nat) (ops : StopOps) : PyRes Unit :=
  match srv with
  | none => .ok ()
  | some _ => do
    let _ ← catchOS ops.shutdownRes
    catchOS ops.closeRes

/-- True for a UTF-8 continuation byte (0x80 to 0xBF). -/
def isCont (b : Nat) : Bool := 0x80 ≤ b && b ≤ 0xBF

/-- Strict UTF-8 decoder over a byte list, returning the list of
decoded code points, or none on any malformed sequence.  It rejects
overlong encodings, surrogate code points and values above 0x10FFFF,
matching the strict decoder that Python uses for read_text with
encoding utf-8. -/
def utf8Decode : List Nat → Option (List Nat)
  | [] => some []
  | b1 :: rest =>
    if b1 ≤ 0x7F then
      (utf8Decode rest).map (fun cs => b1 :: cs)
    else if 0xC2 ≤ b1 && b1 ≤ 0xDF then
      match rest with
      | b2 :: rest2 =>
        if isCont b2 then
          (utf8Decode rest2).map (fun cs => ((b1 - 0xC0) * 0x40 + (b2 - 0x80)) :: cs)
        else none
      | [] => none
    else if 0xE0 ≤ b1 && b1 ≤ 0xEF then
      match rest with
      | b2 :: b3 :: rest2 =>
        let lo2 := if b1 == 0xE0 then 0xA0 else 0x80
        let hi2 := if b1 == 0xED then 0x9F else 0xBF
        if lo2 ≤ b2 && b2 ≤ hi2 && isCont b3 then
          (utf8Decode rest2).map
            (fun cs => ((b1 - 0xE0) * 0x1000 + (b2 - 0x80) * 0x40 + (b3 - 0x80)) :: cs)
        else none
      | _ => none
    else if 0xF0 ≤ b1 && b1 ≤ 0xF4 then
      match rest with
      | b2 :: b3 :: b4 :: rest2 =>
        let lo2 := if b1 == 0xF0 then 0x90 else 0x80
        let hi2 := if b1 == 0xF4 then 0x8F else 0xBF
        if lo2 ≤ b2 && b2 ≤ hi2 && isCont b3 && isCont b4 then
          (utf8Decode rest2).map
            (fun cs => ((b1 - 0xF0) * 0x40000 + (b2 - 0x80) * 0x1000
                        + (b3 - 0x80) * 0x40 + (b4 - 0x80)) :: cs)
        else none
      | _ => none
    else none

/-- Latin-1 decoding of a byte list: every byte 0-255 maps to the code
point of the same value, so the decode is total and byte-preserving. -/
def latin1Decode (bs : List Nat) : List Nat := bs

/-- path.read_text with encoding utf-8, given the raw bytes stored in
the file: either the decoded code points or a UnicodeDecodeError. -/
def readTextUtf8 (bs : List Nat) : PyRes (List Nat) :=
  match utf8Decode bs with
  | some cs => .ok cs
  | none => .error .unicodeDecodeError

/-- Model of read_text (app.py lines 31-36): try UTF-8 first and fall
back to latin-1 when (and only when) a UnicodeDecodeError is raised.
Non-decode errors from the first read would propagate unchanged. -/
def read_text (bs : List Nat) : PyRes (List Nat) :=
  match readTextUtf8 bs with
  | .ok s => .ok s
  | .error .unicodeDecodeError => .ok (latin1Decode bs)
  | .error e => .error e

/-- A filesystem node: a regular file with its byte contents, or a
directory. -/
inductive Node where
  | file (content : List Nat)
  | dir
deriving DecidableEq, Repr

/-- A filesystem snapshot: an association list from paths (component
lists) to nodes; lookup takes the first match, so prepending a new
entry overwrites an old one at the same path. -/
structure FS where
  entries : List (List String × Node)
deriving DecidableEq, Repr

/-- Node stored at a path, if any. -/
def FS.lookupAt (fs : FS) (p : List String) : Option Node :=
  (fs.entries.find? (fun e => e.fst == p)).map (fun e => e.snd)

/-- Path.exists: some node is stored at the path. -/
def FS.existsAt (fs : FS) (p : List String) : Bool :=
  (fs.lookupAt p).isSome

/-- Path.is_file: a regular file is stored at the path. -/
def FS.isFileAt (fs : FS) (p : List String) : Bool :=
  match fs.lookupAt p with
  | some (.file _) => true
  | _ => false

/-- Contents of the regular file at the path, if any. -/
def FS.fileContent (fs : FS) (p : List String) : Option (List Nat) :=
  match fs.lookupAt p with
  | some (.file c) => some c
  | _ => none

/-- Path.write_bytes: store the bytes at the path, replacing whatever
was there (the new entry shadows older ones under lookupAt). -/
def FS.writeAt (fs : FS) (p : List String) (c : List Nat) : FS :=
  ⟨(p, Node.file c) :: fs.entries⟩

/-- The persisted per-session server bookkeeping (app.py lines 81-86):
the server handle, the directory it serves (the script stores str(root);
we store the path itself, str being injective on paths) and the bound
port. -/
structure Session where
  static_server : Option Nat
  static_root : Option (List String)
  static_port : Option Nat
deriving DecidableEq, Repr

/-- Session state after first-run initialization (app.py lines 81-86):
all three fields are None. -/
def initSession : Session := ⟨none, none, none⟩

/-- An uploaded file: its client-side name (a single path component)
and its bytes. -/
structure Upload where
  name : String
  content : List Nat
deriving DecidableEq, Repr

/-- The widget values of one interaction cycle (app.py lines 94-102). -/
structure Input where
  uploaded : Option Upload
  path_str : String
  mode : String
  iframe_h : Nat
  dark_bg : Bool
  show_download : Bool
deriving DecidableEq, Repr

/-- The environment of one interaction cycle: the filesystem snapshot,
the directory holding the script (Path of app.py resolved by its parent),
how a typed path string expands and resolves to an absolute path, the
tempdir root, the port the OS would assign, the identity of a freshly
created server handle, and whether the bind performed when (re)starting
a server raises OSError this cycle. -/
structure World where
  fs : FS
  scriptDir : List String
  resolve : String → List String
  tmpRoot : List String
  freePort : Nat
  nextServerId : Nat
  bindFails : Bool

/-- A server lifecycle event of one cycle: stop_static_server applied to
a recorded handle, or start_static_server returning a new handle. -/
inductive SrvEvent where
  | stop (id : Nat)
  | start (id : Nat)
deriving DecidableEq, Repr

/-- Which branch of the source pick (app.py lines 104-128 and the
fallback at lines 144-157) supplied the document. -/
inductive SourceTag where
  | uploadSrc
  | typedSrc
  | defaultSrc
  | noneSrc
deriving DecidableEq, Repr

/-- How the cycle ended: ran to the end of the script, stopped early
via st.stop, or aborted by an uncaught exception. -/
inductive Outcome where
  | completed
  | stopped
  | raised
deriving DecidableEq, Repr

/-- Everything one interaction cycle produces: the session state left
behind, the filesystem after any upload write, the server lifecycle
events in order, the source pick and resolved document, the download
offer (data, file name, MIME type), the user-visible messages, and how
the cycle ended. -/
structure CycleOut where
  session : Session
  fs : FS
  events : List SrvEvent
  source : SourceTag
  selected : Option (List String)
  htmlName : Option String
  htmlBytes : Option (List Nat)
  download : Option (List Nat × String × String)
  warnings : List String
  errors : List String
  infos : List String
  outcome : Outcome
deriving DecidableEq, Repr

/-- Intermediate result of the source pick. -/
structure Pick where
  fs : FS
  source : SourceTag
  htmlPath : Option (List String)
  htmlName : Option String
  htmlBytes : Option (List Nat)
  warnings : List String
  errors : List String
deriving DecidableEq, Repr

/-- The cache directory used for uploads (app.py line 114):
tempfile.gettempdir() / "_html_viewer_cache". -/
def cachePathOf (w : World) : List String :=
  w.tmpRoot ++ ["_html_viewer_cache"]

/-- Name of the bundled fallback document (app.py line 146). -/
def defaultFileName : String := "corr_beta_MULTI_REPORT.html"

/-- Python str.strip() with no argument: remove leading and trailing
whitespace.  Written structurally over the character list so that
concrete instances evaluate inside the kernel. -/
def pyStrip (s : String) : String :=
  ⟨((s.data.dropWhile Char.isWhitespace).reverse.dropWhile Char.isWhitespace).reverse⟩

/-- Python str.startswith: the second string is a prefix of the first.
Written structurally over the character lists so that concrete
instances evaluate inside the kernel. -/
def pyStartsWith (s pre : String) : Bool :=
  List.isPrefixOf pre.data s.data

/-- The source pick (app.py lines 104-128): an upload wins and is written
to the cache directory under its own name; otherwise a non-blank typed
path is expanded, resolved and checked to be an existing regular file
(warning on failure); otherwise nothing is picked yet. -/
def pickSource (w : World) (inp : Input) : Pick :=
  match inp.uploaded with
  | some u =>
    let p := cachePathOf w ++ [u.name]
    { fs := w.fs.writeAt p u.content
      source := .uploadSrc
      htmlPath := some p
      htmlName := some u.name
      htmlBytes := some u.content
      warnings := []
      errors := [] }
  | none =>
    if pyStrip inp.path_str != "" then
      let p := w.resolve inp.path_str
      if w.fs.existsAt p && w.fs.isFileAt p then
        { fs := w.fs
          source := .typedSrc
          htmlPath := some p
          htmlName := some (p.getLastD "")
          htmlBytes := w.fs.fileContent p
          warnings := []
          errors := [] }
      else
        { fs := w.fs
          source := .noneSrc
          htmlPath := none
          htmlName := none
          htmlBytes := none
          warnings := ["Path does not exist or is not a file."]
          errors := [] }
    else
      { fs := w.fs
        source := .noneSrc
        htmlPath := none
        htmlName := none
        htmlBytes := none
        warnings := []
        errors := [] }

/-- The render stage (app.py lines 159-204), entered once a document is
selected: the optional download button, then either the Embed branch
(read and inline the text, stop any recorded server and clear the three
session fields) or the static-server branch (compute the parent
directory, restart the server only when none is recorded or the served
root changed, reuse it otherwise).  On a restart the recorded server is
stopped first; if the rebind raises, the exception propagates before
any session field was reassigned. -/
def renderStage (w : World) (inp : Input) (s0 : Session) (pk : Pick)
    (p : List String) (infos : List String) : CycleOut :=
  let download :=
    if inp.show_download then
      match pk.htmlBytes with
      | some b => some (b, pk.htmlName.getD "", "text/html")
      | none => none
    else none
  if pyStartsWith inp.mode "Embed" then
    match s0.static_server with
    | some sid =>
      { session := ⟨none, none, none⟩
        fs := pk.fs
        events := [SrvEvent.stop sid]
        source := pk.source
        selected := some p
        htmlName := pk.htmlName
        htmlBytes := pk.htmlBytes
        download := download
        warnings := pk.warnings
        errors := pk.errors
        infos := infos
        outcome := .completed }
    | none =>
      { session := s0
        fs := pk.fs
        events := []
        source := pk.source
        selected := some p
        htmlName := pk.htmlName
        htmlBytes := pk.htmlBytes
        download := download
        warnings := pk.warnings
        errors := pk.errors
        infos := infos
        outcome := .completed }
  else
    let root := p.dropLast
    let needs_restart := s0.static_server == none || s0.static_root != some root
    if needs_restart then
      let stopEvts :=
        match s0.static_server with
        | some sid => [SrvEvent.stop sid]
        | none => []
      if w.bindFails then
        { session := s0
          fs := pk.fs
          events := stopEvts
          source := pk.source
          selected := some p
          htmlName := pk.htmlName
          htmlBytes := pk.htmlBytes
          download := download
          warnings := pk.warnings
          errors := pk.errors
          infos := infos
          outcome := .raised }
      else
        { session := ⟨some w.nextServerId, some root, some w.freePort⟩
          fs := pk.fs
          events := stopEvts ++ [SrvEvent.start w.nextServerId]
          source := pk.source
          selected := some p
          htmlName := pk.htmlName
          htmlBytes := pk.htmlBytes
          download := download
          warnings := pk.warnings
          errors := pk.errors
          infos := infos
          outcome := .completed }
    else
      { session := s0
        fs := pk.fs
        events := []
        source := pk.source
        selected := some p
        htmlName := pk.htmlName
        htmlBytes := pk.htmlBytes
        download := download
        warnings := pk.warnings
        errors := pk.errors
        infos := infos
        outcome := .completed }

/-- One full interaction cycle (the whole script body re-run on a user
interaction): pick the source; if nothing was picked, fall back to the
bundled default next to the script when it exists, and otherwise stop
the run right there (st.stop at app.py line 157) with the session state
untouched; then run the render stage. -/
def runCycle (w : World) (inp : Input) (s0 : Session) : CycleOut :=
  let pk := pickSource w inp
  match pk.htmlPath with
  | some p => renderStage w inp s0 pk p []
  | none =>
    let dflt := w.scriptDir ++ [defaultFileName]
    if w.fs.existsAt dflt then
      let pk2 : Pick :=
        { fs := pk.fs
          source := .defaultSrc
          htmlPath := some dflt
          htmlName := some defaultFileName
          htmlBytes := w.fs.fileContent dflt
          warnings := pk.warnings
          errors := pk.errors }
      renderStage w inp s0 pk2 dflt
        ["Loaded default repository HTML: corr_beta_MULTI_REPORT.html"]
    else
      { session := s0
        fs := pk.fs
        events := []
        source := pk.source
        selected := none
        htmlName := none
        htmlBytes := none
        download := none
        warnings := pk.warnings
        errors := pk.errors
        infos := ["Upload a file, enter a path, or include the default HTML in the repository root."]
        outcome := .stopped }

/-- The stop events that stop_static_server applied to the recorded
handle produces: one stop for a recorded server, none otherwise. -/
def stopEvtsOf (s : Session) : List SrvEvent :=
  match s.static_server with
  | some sid => [SrvEvent.stop sid]
  | none => []

/-- Effect of one server lifecycle event on the list of live server
handles. -/
def applyEvent (active : List Nat) : SrvEvent → List Nat
  | .stop i => active.filter (fun a => !(a == i))
  | .start i => active ++ [i]

/-- Effect of a cycle of events, in order, on the live handles. -/
def applyEvents (active : List Nat) (es : List SrvEvent) : List Nat :=
  es.foldl applyEvent active

/-- The three persisted fields are all None or all non-None. -/
def Session.coherent (s : Session) : Prop :=
  (s.static_server = none ∧ s.static_root = none ∧ s.static_port = none) ∨
  (s.static_server ≠ none ∧ s.static_root ≠ none ∧ s.static_port ≠ none)

lemma renderStage_selected (w : World) (inp : Input) (s0 : Session) (pk : Pick)
    (p : List String) (infos : List String) :
    (renderStage w inp s0 pk p infos).selected = some p := by
  simp only [renderStage]
  split
  · split <;> rfl
  · split
    · split <;> rfl
    · rfl

lemma renderStage_shape (w : World) (inp : Input) (s0 : Session) (pk : Pick)
    (p : List String) (infos : List String) :
    ((renderStage w inp s0 pk p infos).session = s0 ∧
        (renderStage w inp s0 pk p infos).events = []) ∨
    ((renderStage w inp s0 pk p infos).session = ⟨none, none, none⟩ ∧
        (renderStage w inp s0 pk p infos).events = stopEvtsOf s0) ∨
    ((renderStage w inp s0 pk p infos).session = s0 ∧
        (renderStage w inp s0 pk p infos).events = stopEvtsOf s0) ∨
    ((renderStage w inp s0 pk p infos).session =
        ⟨some w.nextServerId, some p.dropLast, some w.freePort⟩ ∧
        (renderStage w inp s0 pk p infos).events =
          stopEvtsOf s0 ++ [SrvEvent.start w.nextServerId]) := by
  simp only [renderStage]
  split
  · -- Embed branch
    split
    · next sid hs => right; left; simp [stopEvtsOf, hs]
    · left; simp
  · -- static-server branch
    split
    · -- needs_restart
      split
      · -- bind raises
        right; right; left
        constructor <;> simp [stopEvtsOf]
      · right; right; right
        constructor <;> simp [stopEvtsOf]
    · left; simp

lemma runCycle_shape (w : World) (inp : Input) (s0 : Session) :
    (((runCycle w inp s0).session = s0 ∧ (runCycle w inp s0).events = []) ∨
     ((runCycle w inp s0).session = ⟨none, none, none⟩ ∧
        (runCycle w inp s0).events = stopEvtsOf s0) ∨
     ((runCycle w inp s0).session = s0 ∧
        (runCycle w inp s0).events = stopEvtsOf s0) ∨
     (∃ root, (runCycle w inp s0).session = ⟨some w.nextServerId, some root, some w.freePort⟩ ∧
        (runCycle w inp s0).events = stopEvtsOf s0 ++ [SrvEvent.start w.nextServerId])) := by
  simp only [runCycle]
  split
  · next p hp =>
    rcases renderStage_shape w inp s0 (pickSource w inp) p [] with h | h | h | h
    · exact Or.inl h
    · exact Or.inr (Or.inl h)
    · exact Or.inr (Or.inr (Or.inl h))
    · exact Or.inr (Or.inr (Or.inr ⟨p.dropLast, h⟩))
  · split
    · next hd =>
      rcases renderStage_shape w inp s0 _ (w.scriptDir ++ [defaultFileName]) _ with h | h | h | h
      · exact Or.inl h
      · exact Or.inr (Or.inl h)
      · exact Or.inr (Or.inr (Or.inl h))
      · exact Or.inr (Or.inr (Or.inr ⟨(w.scriptDir ++ [defaultFileName]).dropLast, h⟩))
    · left; simp

lemma renderStage_fields (w : World) (inp : Input) (s0 : Session) (pk : Pick)
    (p : List String) (infos : List String) :
    (renderStage w inp s0 pk p infos).fs = pk.fs ∧
    (renderStage w inp s0 pk p infos).source = pk.source ∧
    (renderStage w inp s0 pk p infos).htmlName = pk.htmlName ∧
    (renderStage w inp s0 pk p infos).htmlBytes = pk.htmlBytes ∧
    (renderStage w inp s0 pk p infos).warnings = pk.warnings ∧
    (renderStage w inp s0 pk p infos).download =
      (if inp.show_download then
        match pk.htmlBytes with
        | some b => some (b, pk.htmlName.getD "", "text/html")
        | none => none
      else none) := by
  simp only [renderStage]
  split
  · split <;> exact ⟨rfl, rfl, rfl, rfl, rfl, rfl⟩
  · split
    · split <;> exact ⟨rfl, rfl, rfl, rfl, rfl, rfl⟩
    · exact ⟨rfl, rfl, rfl, rfl, rfl, rfl⟩

lemma renderStage_embed (w : World) (inp : Input) (s0 : Session) (pk : Pick)
    (p : List String) (infos : List String)
    (hm : pyStartsWith inp.mode "Embed" = true) :
    (renderStage w inp s0 pk p infos).session =
      (match s0.static_server with
        | some _ => ⟨none, none, none⟩
        | none => s0) ∧
    (renderStage w inp s0 pk p infos).events = stopEvtsOf s0 ∧
    (renderStage w inp s0 pk p infos).outcome = Outcome.completed := by
  simp only [renderStage, hm]
  cases hs : s0.static_server <;> simp [stopEvtsOf, hs]

lemma renderStage_noop (w : World) (inp : Input) (s0 : Session) (pk : Pick)
    (p : List String) (infos : List String) (sid : Nat)
    (hm : pyStartsWith inp.mode "Embed" = false)
    (hs : s0.static_server = some sid)
    (hr : s0.static_root = some p.dropLast) :
    (renderStage w inp s0 pk p infos).session = s0 ∧
    (renderStage w inp s0 pk p infos).events = [] ∧
    (renderStage w inp s0 pk p infos).outcome = Outcome.completed := by
  simp only [renderStage, hm]
  have hcond : (s0.static_server == none || s0.static_root != some p.dropLast) = false := by
    simp [hs, hr]
  simp [hcond]

lemma renderStage_restart (w : World) (inp : Input) (s0 : Session) (pk : Pick)
    (p : List String) (infos : List String)
    (hm : pyStartsWith inp.mode "Embed" = false)
    (hcond : (s0.static_server == none || s0.static_root != some p.dropLast) = true)
    (hb : w.bindFails = false) :
    (renderStage w inp s0 pk p infos).session =
      ⟨some w.nextServerId, some p.dropLast, some w.freePort⟩ ∧
    (renderStage w inp s0 pk p infos).events =
      stopEvtsOf s0 ++ [SrvEvent.start w.nextServerId] ∧
    (renderStage w inp s0 pk p infos).outcome = Outcome.completed := by
  simp only [renderStage, hm]
  simp [hcond, hb, stopEvtsOf]

lemma runCycle_branches (w : World) (inp : Input) (s0 : Session) :
    (∃ p, (pickSource w inp).htmlPath = some p ∧
       runCycle w inp s0 = renderStage w inp s0 (pickSource w inp) p []) ∨
    ((pickSource w inp).htmlPath = none ∧
       w.fs.existsAt (w.scriptDir ++ [defaultFileName]) = true ∧
       runCycle w inp s0 = renderStage w inp s0
         { fs := (pickSource w inp).fs
           source := .defaultSrc
           htmlPath := some (w.scriptDir ++ [defaultFileName])
           htmlName := some defaultFileName
           htmlBytes := w.fs.fileContent (w.scriptDir ++ [defaultFileName])
           warnings := (pickSource w inp).warnings
           errors := (pickSource w inp).errors }
         (w.scriptDir ++ [defaultFileName])
         ["Loaded default repository HTML: corr_beta_MULTI_REPORT.html"]) ∨
    ((pickSource w inp).htmlPath = none ∧
       w.fs.existsAt (w.scriptDir ++ [defaultFileName]) = false ∧
       runCycle w inp s0 =
         { session := s0
           fs := (pickSource w inp).fs
           events := []
           source := (pickSource w inp).source
           selected := none
           htmlName := none
           htmlBytes := none
           download := none
           warnings := (pickSource w inp).warnings
           errors := (pickSource w inp).errors
           infos := ["Upload a file, enter a path, or include the default HTML in the repository root."]
           outcome := .stopped }) := by
  simp only [runCycle]
  split
  · next p hp => exact Or.inl ⟨p, hp, rfl⟩
  · next hp =>
    split
    · next hd => exact Or.inr (Or.inl ⟨hp, hd, rfl⟩)
    · next hd => exact Or.inr (Or.inr ⟨hp, by simpa using hd, rfl⟩)

lemma applyEvents_stop_nil (s0 : Session) (active : List Nat)
    (hsub : ∀ a ∈ active, s0.static_server = some a) :
    applyEvents active (stopEvtsOf s0) = [] := by
  unfold stopEvtsOf
  cases hs : s0.static_server with
  | none =>
    have : active = [] := by
      cases active with
      | nil => rfl
      | cons a tl =>
        have := hsub a (by simp)
        rw [hs] at this
        cases this
    simp [applyEvents, this]
  | some old =>
    simp only [applyEvents, List.foldl_cons, List.foldl_nil, applyEvent]
    apply List.filter_eq_nil_iff.mpr
    intro a ha
    have := hsub a ha
    rw [hs] at this
    injection this with h
    simp [h]

lemma start_not_mem_stopEvts (s0 : Session) (n : Nat) :
    SrvEvent.start n ∉ stopEvtsOf s0 := by
  unfold stopEvtsOf
  cases s0.static_server <;> simp

/-- A demo filesystem holding the bundled default document next to the
script and one HTML file in a site directory. -/
def fsWithDefault : FS :=
  ⟨[(["app", defaultFileName], Node.file [60, 112, 62]),
    (["tmp", "site", "a.html"], Node.file [104, 105])]⟩

/-- The same filesystem without the bundled default document. -/
def fsNoDefault : FS :=
  ⟨[(["tmp", "site", "a.html"], Node.file [104, 105])]⟩

/-- A demo world where the bundled default exists and typed strings
resolve into the site directory. -/
def wDemo : World :=
  { fs := fsWithDefault
    scriptDir := ["app"]
    resolve := fun s => ["tmp", "site", s]
    tmpRoot := ["tmp"]
    freePort := 53211
    nextServerId := 7
    bindFails := false }

/-- A demo world where the bundled default is absent. -/
def wBare : World :=
  { fs := fsNoDefault
    scriptDir := ["app"]
    resolve := fun s => ["tmp", "site", s]
    tmpRoot := ["tmp"]
    freePort := 53211
    nextServerId := 7
    bindFails := false }

/-- Embed-mode input with a valid typed path. -/
def inpEmbed : Input :=
  { uploaded := none
    path_str := "a.html"
    mode := "Embed (srcdoc)"
    iframe_h := 900
    dark_bg := true
    show_download := true }

/-- Server-mode input with a valid typed path. -/
def inpServer : Input :=
  { uploaded := none
    path_str := "a.html"
    mode := "Static server (handles assets)"
    iframe_h := 900
    dark_bg := true
    show_download := true }

/-- A session remembering a running server on the site directory. -/
def sessSite : Session := ⟨some 3, some ["tmp", "site"], some 41234⟩

/-- Claim C10: the three session fields static_server, static_root and
static_port are all None or all non-None together, after initialization
and after every interaction cycle that starts from a state with that
property. -/
theorem C10_session_fields_coherent (w : World) (inp : Input) (s0 : Session)
    (h : s0.coherent) :
    Session.coherent initSession ∧ ((runCycle w inp s0).session).coherent := by
  constructor
  · exact Or.inl ⟨rfl, rfl, rfl⟩
  · rcases runCycle_shape w inp s0 with ⟨hs, _⟩ | ⟨hs, _⟩ | ⟨hs, _⟩ | ⟨root, hs, _⟩
    · rw [hs]; exact h
    · rw [hs]; exact Or.inl ⟨rfl, rfl, rfl⟩
    · rw [hs]; exact h
    · rw [hs]; exact Or.inr ⟨by simp, by simp, by simp⟩

/-- Witness for Claim C10 at a concrete cycle. -/
theorem C10_session_fields_coherent_witness :
    Session.coherent initSession ∧
      ((runCycle wDemo inpServer sessSite).session).coherent :=
  C10_session_fields_coherent wDemo inpServer sessSite
    (Or.inr ⟨by simp [sessSite], by simp [sessSite], by simp [sessSite]⟩)

/-- Claim C5: at most one server instance is live per session: running
the live-handle list through the events of any cycle keeps its length
at most one and keeps every live handle equal to the recorded one, and
whenever a cycle starts a new server while one was recorded, the events
of that cycle are exactly the stop of the recorded server followed by
the start of the new one. -/
theorem C5_at_most_one_server (w : World) (inp : Input) (s0 : Session)
    (active : List Nat)
    (hlen : active.length ≤ 1)
    (hsub : ∀ a ∈ active, s0.static_server = some a) :
    (applyEvents active (runCycle w inp s0).events).length ≤ 1 ∧
    (∀ a ∈ applyEvents active (runCycle w inp s0).events,
        (runCycle w inp s0).session.static_server = some a) ∧
    (∀ n old, SrvEvent.start n ∈ (runCycle w inp s0).events →
        s0.static_server = some old →
        (runCycle w inp s0).events = [SrvEvent.stop old, SrvEvent.start n]) := by
  rcases runCycle_shape w inp s0 with ⟨hs, he⟩ | ⟨hs, he⟩ | ⟨hs, he⟩ | ⟨root, hs, he⟩
  · rw [hs, he]
    refine ⟨hlen, hsub, ?_⟩
    intro n old hn
    simp at hn
  · rw [hs, he, applyEvents_stop_nil s0 active hsub]
    refine ⟨by simp, by simp, ?_⟩
    intro n old hn
    exact absurd hn (start_not_mem_stopEvts s0 n)
  · rw [hs, he, applyEvents_stop_nil s0 active hsub]
    refine ⟨by simp, by simp, ?_⟩
    intro n old hn
    exact absurd hn (start_not_mem_stopEvts s0 n)
  · rw [hs, he]
    have hnil : applyEvents active (stopEvtsOf s0) = [] :=
      applyEvents_stop_nil s0 active hsub
    have happ : applyEvents active (stopEvtsOf s0 ++ [SrvEvent.start w.nextServerId]) =
        [w.nextServerId] := by
      unfold applyEvents at hnil ⊢
      rw [List.foldl_append, hnil]
      simp [applyEvent]
    rw [happ]
    refine ⟨by simp, by simp, ?_⟩
    intro n old hn hold
    rcases List.mem_append.mp hn with h1 | h1
    · exact absurd h1 (start_not_mem_stopEvts s0 n)
    · have hn' : n = w.nextServerId := by
        simp at h1
        exact h1
      unfold stopEvtsOf
      rw [hold, hn']
      rfl

/-- Witness for Claim C5 at a concrete cycle that restarts the server. -/
theorem C5_at_most_one_server_witness :
    (applyEvents [3] (runCycle wBare inpEmbed sessSite).events).length ≤ 1 ∧
    (∀ a ∈ applyEvents [3] (runCycle wBare inpEmbed sessSite).events,
        (runCycle wBare inpEmbed sessSite).session.static_server = some a) ∧
    (∀ n old, SrvEvent.start n ∈ (runCycle wBare inpEmbed sessSite).events →
        sessSite.static_server = some old →
        (runCycle wBare inpEmbed sessSite).events =
          [SrvEvent.stop old, SrvEvent.start n]) :=
  C5_at_most_one_server wBare inpEmbed sessSite [3] (by decide) (by decide)

/-- Claim C1 (counterexample): a bind error inside find_free_port is not
caught, so starting the server propagates an OSError to the caller,
refuting that start and stop never propagate exceptions; the same
happens when the TCPServer constructor inside start_static_server
raises on bind. -/
theorem C1_counterexample :
    find_free_port ⟨Except.error PyErr.osError, 0⟩ = Except.error PyErr.osError ∧
    start_static_server ⟨Except.ok (), Except.error PyErr.osError, Except.ok ()⟩ =
      Except.error PyErr.osError := ⟨rfl, rfl⟩

/-- Claim C1 (amended): stopping the server never propagates: given that
shutdown and server_close can only fail with OSError, stop_static_server
always returns successfully, and the serve loop in the background thread
swallows its OSError as well; but the binds performed while starting a
server (in find_free_port and in the TCPServer constructor inside
start_static_server) are unprotected and propagate their OSError to the
caller. -/
theorem C1_stop_suppresses_start_propagates (srv : Option Nat) (ops : StopOps)
    (hs : ops.shutdownRes = Except.ok () ∨ ops.shutdownRes = Except.error PyErr.osError)
    (hc : ops.closeRes = Except.ok () ∨ ops.closeRes = Except.error PyErr.osError) :
    stop_static_server srv ops = Except.ok () ∧
    (∀ sops : SocketOps, sops.bindRes = Except.error PyErr.osError →
        find_free_port sops = Except.error PyErr.osError) ∧
    (∀ vops : ServerOps, vops.chdirRes = Except.ok () →
        vops.tcpServerRes = Except.error PyErr.osError →
        start_static_server vops = Except.error PyErr.osError) ∧
    (∀ vops : ServerOps, vops.serveLoopRes = Except.error PyErr.osError →
        serve_thread vops = Except.ok ()) := by
  refine ⟨?_, ?_, ?_, ?_⟩
  · cases srv with
    | none => rfl
    | some sid =>
      rcases hs with hs | hs <;> rcases hc with hc | hc <;>
        simp [stop_static_server, catchOS, hs, hc] <;> rfl
  · intro sops hb
    simp [find_free_port, hb]
  · intro vops h1 h2
    simp [start_static_server, h1, h2]
    rfl
  · intro vops h1
    simp [serve_thread, catchOS, h1]

/-- Witness for Claim C1 (amended) at concrete failing operations. -/
theorem C1_stop_suppresses_start_propagates_witness :
    stop_static_server (some 3)
        ⟨Except.error PyErr.osError, Except.error PyErr.osError⟩ = Except.ok () ∧
    (∀ sops : SocketOps, sops.bindRes = Except.error PyErr.osError →
        find_free_port sops = Except.error PyErr.osError) ∧
    (∀ vops : ServerOps, vops.chdirRes = Except.ok () →
        vops.tcpServerRes = Except.error PyErr.osError →
        start_static_server vops = Except.error PyErr.osError) ∧
    (∀ vops : ServerOps, vops.serveLoopRes = Except.error PyErr.osError →
        serve_thread vops = Except.ok ()) :=
  C1_stop_suppresses_start_propagates (some 3)
    ⟨Except.error PyErr.osError, Except.error PyErr.osError⟩
    (Or.inr rfl) (Or.inr rfl)

/-- Claim C7: for every byte sequence stored in the file, read_text
returns a string and never raises a decode error: when the bytes are
valid UTF-8 it returns the UTF-8 decoding, and on a UnicodeDecodeError
it returns the byte-preserving latin-1 decoding instead. -/
theorem C7_read_text_never_raises (bs : List Nat) (_hb : ∀ b ∈ bs, b < 256) :
    (∃ s, read_text bs = Except.ok s) ∧
    (∀ cs, utf8Decode bs = some cs → read_text bs = Except.ok cs) ∧
    (utf8Decode bs = none →
        read_text bs = Except.ok (latin1Decode bs) ∧ latin1Decode bs = bs) := by
  refine ⟨?_, ?_, ?_⟩
  · cases h : utf8Decode bs with
    | some cs => exact ⟨cs, by simp [read_text, readTextUtf8, h]⟩
    | none => exact ⟨latin1Decode bs, by simp [read_text, readTextUtf8, h]⟩
  · intro cs h
    simp [read_text, readTextUtf8, h]
  · intro h
    exact ⟨by simp [read_text, readTextUtf8, h], rfl⟩

/-- Witness for Claim C7 on an invalid UTF-8 byte sequence: the 0xFF
byte can never appear in UTF-8, so the latin-1 fallback is taken and
the bytes survive unchanged. -/
theorem C7_read_text_never_raises_witness :
    read_text [0xFF, 0x61] = Except.ok [0xFF, 0x61] ∧
    read_text [0xFF, 0x61] = Except.ok (latin1Decode [0xFF, 0x61]) := by
  have h := C7_read_text_never_raises [0xFF, 0x61] (by decide)
  have hu : utf8Decode [0xFF, 0x61] = none := by decide
  have h2 := h.2.2 hu
  exact ⟨by rw [h2.1, h2.2], h2.1⟩

lemma pickSource_upload (w : World) (inp : Input) (u : Upload)
    (hup : inp.uploaded = some u) :
    pickSource w inp =
      { fs := w.fs.writeAt (cachePathOf w ++ [u.name]) u.content
        source := .uploadSrc
        htmlPath := some (cachePathOf w ++ [u.name])
        htmlName := some u.name
        htmlBytes := some u.content
        warnings := []
        errors := [] } := by
  simp [pickSource, hup]

lemma pickSource_typed_ok (w : World) (inp : Input)
    (hup : inp.uploaded = none)
    (hne : pyStrip inp.path_str ≠ "")
    (hok : (w.fs.existsAt (w.resolve inp.path_str) &&
            w.fs.isFileAt (w.resolve inp.path_str)) = true) :
    pickSource w inp =
      { fs := w.fs
        source := .typedSrc
        htmlPath := some (w.resolve inp.path_str)
        htmlName := some ((w.resolve inp.path_str).getLastD "")
        htmlBytes := w.fs.fileContent (w.resolve inp.path_str)
        warnings := []
        errors := [] } := by
  simp [pickSource, hup, hne, hok]

lemma pickSource_typed_bad (w : World) (inp : Input)
    (hup : inp.uploaded = none)
    (hne : pyStrip inp.path_str ≠ "")
    (hbad : (w.fs.existsAt (w.resolve inp.path_str) &&
             w.fs.isFileAt (w.resolve inp.path_str)) = false) :
    pickSource w inp =
      { fs := w.fs
        source := .noneSrc
        htmlPath := none
        htmlName := none
        htmlBytes := none
        warnings := ["Path does not exist or is not a file."]
        errors := [] } := by
  simp [pickSource, hup, hne, hbad]

lemma pickSource_blank (w : World) (inp : Input)
    (hup : inp.uploaded = none)
    (hbl : pyStrip inp.path_str = "") :
    pickSource w inp =
      { fs := w.fs
        source := .noneSrc
        htmlPath := none
        htmlName := none
        htmlBytes := none
        warnings := []
        errors := [] } := by
  simp [pickSource, hup, hbl]

lemma runCycle_eq_render_of_pick (w : World) (inp : Input) (s0 : Session)
    (p : List String) (hp : (pickSource w inp).htmlPath = some p) :
    runCycle w inp s0 = renderStage w inp s0 (pickSource w inp) p [] := by
  rcases runCycle_branches w inp s0 with ⟨q, hq, hr⟩ | ⟨hq, _, _⟩ | ⟨hq, _, _⟩
  · have hpq : p = q := by
      have := hp.symm.trans hq
      injection this
    rw [hpq]
    exact hr
  · rw [hp] at hq; cases hq
  · rw [hp] at hq; cases hq

lemma runCycle_eq_default (w : World) (inp : Input) (s0 : Session)
    (hp : (pickSource w inp).htmlPath = none)
    (hd : w.fs.existsAt (w.scriptDir ++ [defaultFileName]) = true) :
    runCycle w inp s0 = renderStage w inp s0
      { fs := (pickSource w inp).fs
        source := .defaultSrc
        htmlPath := some (w.scriptDir ++ [defaultFileName])
        htmlName := some defaultFileName
        htmlBytes := w.fs.fileContent (w.scriptDir ++ [defaultFileName])
        warnings := (pickSource w inp).warnings
        errors := (pickSource w inp).errors }
      (w.scriptDir ++ [defaultFileName])
      ["Loaded default repository HTML: corr_beta_MULTI_REPORT.html"] := by
  rcases runCycle_branches w inp s0 with ⟨q, hq, _⟩ | ⟨_, _, hr⟩ | ⟨_, hd2, _⟩
  · rw [hp] at hq; cases hq
  · exact hr
  · rw [hd] at hd2; cases hd2

lemma runCycle_eq_stop (w : World) (inp : Input) (s0 : Session)
    (hp : (pickSource w inp).htmlPath = none)
    (hd : w.fs.existsAt (w.scriptDir ++ [defaultFileName]) = false) :
    runCycle w inp s0 =
      { session := s0
        fs := (pickSource w inp).fs
        events := []
        source := (pickSource w inp).source
        selected := none
        htmlName := none
        htmlBytes := none
        download := none
        warnings := (pickSource w inp).warnings
        errors := (pickSource w inp).errors
        infos := ["Upload a file, enter a path, or include the default HTML in the repository root."]
        outcome := .stopped } := by
  rcases runCycle_branches w inp s0 with ⟨q, hq, _⟩ | ⟨_, hd2, _⟩ | ⟨_, _, hr⟩
  · rw [hp] at hq; cases hq
  · rw [hd] at hd2; cases hd2
  · exact hr

/-- Claim C6: the source pick follows the priority order upload, then
typed path, then bundled default: an upload is always used regardless
of the typed path; with no upload, a non-blank typed path naming an
existing regular file is used; with no upload and a blank typed path
the bundled default is used when it exists, and nothing is selected
when it does not. -/
theorem C6_source_priority (w : World) (inp : Input) (s0 : Session) :
    (∀ u, inp.uploaded = some u →
        (runCycle w inp s0).source = SourceTag.uploadSrc ∧
        (runCycle w inp s0).selected = some (cachePathOf w ++ [u.name])) ∧
    (inp.uploaded = none → pyStrip inp.path_str ≠ "" →
        (w.fs.existsAt (w.resolve inp.path_str) &&
            w.fs.isFileAt (w.resolve inp.path_str)) = true →
        (runCycle w inp s0).source = SourceTag.typedSrc ∧
        (runCycle w inp s0).selected = some (w.resolve inp.path_str)) ∧
    (inp.uploaded = none → pyStrip inp.path_str = "" →
        (w.fs.existsAt (w.scriptDir ++ [defaultFileName]) = true →
            (runCycle w inp s0).source = SourceTag.defaultSrc ∧
            (runCycle w inp s0).selected = some (w.scriptDir ++ [defaultFileName])) ∧
        (w.fs.existsAt (w.scriptDir ++ [defaultFileName]) = false →
            (runCycle w inp s0).selected = none ∧
            (runCycle w inp s0).outcome = Outcome.stopped)) := by
  refine ⟨?_, ?_, ?_⟩
  · intro u hup
    have hpk := pickSource_upload w inp u hup
    have hp : (pickSource w inp).htmlPath = some (cachePathOf w ++ [u.name]) := by
      rw [hpk]
    rw [runCycle_eq_render_of_pick w inp s0 _ hp]
    refine ⟨?_, renderStage_selected _ _ _ _ _ _⟩
    rw [(renderStage_fields w inp s0 _ _ _).2.1, hpk]
  · intro hup hne hok
    have hpk := pickSource_typed_ok w inp hup hne hok
    have hp : (pickSource w inp).htmlPath = some (w.resolve inp.path_str) := by
      rw [hpk]
    rw [runCycle_eq_render_of_pick w inp s0 _ hp]
    refine ⟨?_, renderStage_selected _ _ _ _ _ _⟩
    rw [(renderStage_fields w inp s0 _ _ _).2.1, hpk]
  · intro hup hbl
    have hpk := pickSource_blank w inp hup hbl
    have hp : (pickSource w inp).htmlPath = none := by rw [hpk]
    constructor
    · intro hd
      rw [runCycle_eq_default w inp s0 hp hd]
      exact ⟨(renderStage_fields w inp s0 _ _ _).2.1, renderStage_selected _ _ _ _ _ _⟩
    · intro hd
      rw [runCycle_eq_stop w inp s0 hp hd]
      exact ⟨rfl, rfl⟩

/-- Witness for Claim C6 at a concrete cycle using a valid typed path. -/
theorem C6_source_priority_witness :
    (runCycle wDemo inpServer initSession).source = SourceTag.typedSrc ∧
    (runCycle wDemo inpServer initSession).selected = some ["tmp", "site", "a.html"] :=
  (C6_source_priority wDemo inpServer initSession).2.1 rfl (by decide) (by decide)

lemma FS.fileContent_writeAt (fs : FS) (p : List String) (c : List Nat) :
    (fs.writeAt p c).fileContent p = some c := by
  unfold FS.writeAt FS.fileContent FS.lookupAt
  rw [List.find?_cons_of_pos]
  · rfl
  · simp

lemma getLastD_concat (xs : List String) (a d : String) :
    (xs ++ [a]).getLastD d = a := by
  rw [List.getLastD_eq_getLast?, List.getLast?_concat]
  rfl

/-- Claim C8: an upload with filename F and content B is written to the
fixed cache subdirectory under the temp location, at a path whose last
component (basename) is F and whose contents afterwards are B, whatever
the file held before — so a later upload with the same name overwrites
the earlier one. -/
theorem C8_upload_cached (w : World) (inp : Input) (s0 : Session) (u : Upload)
    (hup : inp.uploaded = some u) :
    (runCycle w inp s0).selected = some (cachePathOf w ++ [u.name]) ∧
    (cachePathOf w ++ [u.name]).getLastD "" = u.name ∧
    (runCycle w inp s0).fs.fileContent (cachePathOf w ++ [u.name]) = some u.content := by
  have hpk := pickSource_upload w inp u hup
  have hp : (pickSource w inp).htmlPath = some (cachePathOf w ++ [u.name]) := by
    rw [hpk]
  rw [runCycle_eq_render_of_pick w inp s0 _ hp]
  refine ⟨renderStage_selected _ _ _ _ _ _, ?_, ?_⟩
  · exact getLastD_concat _ _ _
  · rw [(renderStage_fields w inp s0 _ _ _).1, hpk]
    exact FS.fileContent_writeAt _ _ _

/-- A demo upload used by the witnesses. -/
def upDemo : Upload := ⟨"demo.html", [60, 112, 62, 104, 105, 60, 47, 112, 62]⟩

/-- Server-mode input carrying an upload (and a typed path that the
upload takes priority over). -/
def inpUpload : Input :=
  { uploaded := some upDemo
    path_str := "a.html"
    mode := "Static server (handles assets)"
    iframe_h := 900
    dark_bg := true
    show_download := true }

/-- Witness for Claim C8: uploading demo.html twice with different
contents leaves the second contents in the cache. -/
theorem C8_upload_cached_witness :
    (runCycle wDemo inpUpload initSession).selected =
      some (cachePathOf wDemo ++ [upDemo.name]) ∧
    (cachePathOf wDemo ++ [upDemo.name]).getLastD "" = upDemo.name ∧
    (runCycle wDemo inpUpload initSession).fs.fileContent
      (cachePathOf wDemo ++ [upDemo.name]) = some upDemo.content :=
  C8_upload_cached wDemo inpUpload initSession upDemo rfl

/-- Claim C9: whenever the download toggle is on, an uploaded document
is offered back as exactly its original bytes under its original
filename with MIME type text/html, and in general any successfully read
document is offered as exactly the bytes read, under the resolved name,
with MIME type text/html. -/
theorem C9_download_original (w : World) (inp : Input) (s0 : Session)
    (hsd : inp.show_download = true) :
    (∀ u, inp.uploaded = some u →
        (runCycle w inp s0).download = some (u.content, u.name, "text/html")) ∧
    (∀ b, (runCycle w inp s0).htmlBytes = some b →
        (runCycle w inp s0).download =
          some (b, (runCycle w inp s0).htmlName.getD "", "text/html")) := by
  constructor
  · intro u hup
    have hpk := pickSource_upload w inp u hup
    have hp : (pickSource w inp).htmlPath = some (cachePathOf w ++ [u.name]) := by
      rw [hpk]
    rw [runCycle_eq_render_of_pick w inp s0 _ hp]
    rw [(renderStage_fields w inp s0 _ _ _).2.2.2.2.2, hpk, hsd]
    simp
  · intro b hb
    rcases runCycle_branches w inp s0 with ⟨q, hq, hr⟩ | ⟨hq, hd, hr⟩ | ⟨hq, hd, hr⟩
    · rw [hr] at hb ⊢
      rw [(renderStage_fields w inp s0 _ _ _).2.2.2.2.2, hsd,
        (renderStage_fields w inp s0 _ _ _).2.2.1,
        (renderStage_fields w inp s0 _ _ _).2.2.2.1] at *
      simp [hb]
    · rw [hr] at hb ⊢
      rw [(renderStage_fields w inp s0 _ _ _).2.2.2.2.2, hsd,
        (renderStage_fields w inp s0 _ _ _).2.2.1,
        (renderStage_fields w inp s0 _ _ _).2.2.2.1] at *
      simp only [] at hb
      simp [hb]
    · rw [hr] at hb
      cases hb

/-- Witness for Claim C9: the uploaded demo.html comes back as exactly
its nine original bytes under its original name. -/
theorem C9_download_original_witness :
    (runCycle wDemo inpUpload initSession).download =
      some (upDemo.content, upDemo.name, "text/html") :=
  (C9_download_original wDemo inpUpload initSession rfl).1 upDemo rfl

/-- Claim C4: entering server mode with a server already recorded and
the resolved document's parent directory equal to the recorded served
directory is a no-op on the server state: the session (handle, root and
port) is kept unchanged and no server lifecycle event happens. -/
theorem C4_server_reuse_noop (w : World) (inp : Input) (s0 : Session)
    (sid : Nat) (root : List String) (port : Nat)
    (hm : pyStartsWith inp.mode "Embed" = false)
    (hs : s0.static_server = some sid)
    (hr : s0.static_root = some root)
    (hp : s0.static_port = some port)
    (hsel : ∀ p, (runCycle w inp s0).selected = some p → p.dropLast = root) :
    (runCycle w inp s0).session = s0 ∧
    (runCycle w inp s0).events = [] ∧
    (runCycle w inp s0).session.static_port = some port := by
  rcases runCycle_branches w inp s0 with ⟨q, hq, hre⟩ | ⟨hq, hd, hre⟩ | ⟨hq, hd, hre⟩
  · have hselq : (runCycle w inp s0).selected = some q := by
      rw [hre]; exact renderStage_selected _ _ _ _ _ _
    have hq' : q.dropLast = root := hsel q hselq
    rw [hre]
    have hnoop := renderStage_noop w inp s0 (pickSource w inp) q [] sid hm hs
      (by rw [hr, hq'])
    exact ⟨hnoop.1, hnoop.2.1, by rw [hnoop.1, hp]⟩
  · have hselq : (runCycle w inp s0).selected = some (w.scriptDir ++ [defaultFileName]) := by
      rw [hre]; exact renderStage_selected _ _ _ _ _ _
    have hq' : (w.scriptDir ++ [defaultFileName]).dropLast = root := hsel _ hselq
    rw [hre]
    have hnoop := renderStage_noop w inp s0
      { fs := (pickSource w inp).fs
        source := .defaultSrc
        htmlPath := some (w.scriptDir ++ [defaultFileName])
        htmlName := some defaultFileName
        htmlBytes := w.fs.fileContent (w.scriptDir ++ [defaultFileName])
        warnings := (pickSource w inp).warnings
        errors := (pickSource w inp).errors }
      (w.scriptDir ++ [defaultFileName])
      ["Loaded default repository HTML: corr_beta_MULTI_REPORT.html"] sid hm hs
      (by rw [hr, hq'])
    exact ⟨hnoop.1, hnoop.2.1, by rw [hnoop.1, hp]⟩
  · rw [hre]
    exact ⟨rfl, rfl, hp⟩

/-- Server-mode input identical to inpServer except for the iframe
height, modelling a cycle where only the height control changed. -/
def inpServerHeight : Input :=
  { uploaded := none
    path_str := "a.html"
    mode := "Static server (handles assets)"
    iframe_h := 950
    dark_bg := true
    show_download := true }

/-- Witness for Claim C4: with the server recorded on the site
directory and only the iframe height changed, the cycle keeps the
session, fires no server event, and the port stays 41234. -/
theorem C4_server_reuse_noop_witness :
    (runCycle wDemo inpServerHeight sessSite).session = sessSite ∧
    (runCycle wDemo inpServerHeight sessSite).events = [] ∧
    (runCycle wDemo inpServerHeight sessSite).session.static_port = some 41234 :=
  C4_server_reuse_noop wDemo inpServerHeight sessSite 3 ["tmp", "site"] 41234
    (by decide) rfl rfl rfl
    (fun p hp => by
      have hsel : (runCycle wDemo inpServerHeight sessSite).selected =
          some ["tmp", "site", "a.html"] := by decide
      rw [hsel] at hp
      injection hp with h
      rw [← h]
      decide)

/-- Blank-input cycle in Embed mode, with no upload and no typed path. -/
def inpBlankEmbed : Input :=
  { uploaded := none
    path_str := ""
    mode := "Embed (srcdoc)"
    iframe_h := 900
    dark_bg := true
    show_download := true }

/-- Claim C3 (counterexample): in a cycle where no document ends up
selected (blank inputs, bundled default absent) while a server is
recorded, the script stops without tearing the server down: the handle
stays some 3 and no stop event fires, refuting that the handle is
always None afterwards. -/
theorem C3_counterexample :
    (runCycle wBare inpBlankEmbed sessSite).selected = none ∧
    (runCycle wBare inpBlankEmbed sessSite).session.static_server = some 3 ∧
    (runCycle wBare inpBlankEmbed sessSite).events = [] := by decide

/-- Claim C3 (amended): in an Embed-mode cycle in which a document is
selected, the recorded server (if any) is stopped and all three session
fields are cleared, so the handle is None afterwards; but in a cycle
where no document ends up selected the script stops early and leaves
the session state, including any recorded server, untouched. -/
theorem C3_embed_teardown_or_stop (w : World) (inp : Input) (s0 : Session) :
    (pyStartsWith inp.mode "Embed" = true →
      ∀ p, (runCycle w inp s0).selected = some p →
        (runCycle w inp s0).session.static_server = none ∧
        (∀ sid, s0.static_server = some sid →
          (runCycle w inp s0).session = ⟨none, none, none⟩ ∧
          (runCycle w inp s0).events = [SrvEvent.stop sid])) ∧
    ((runCycle w inp s0).selected = none →
      (runCycle w inp s0).session = s0 ∧
      (runCycle w inp s0).events = [] ∧
      (runCycle w inp s0).outcome = Outcome.stopped) := by
  constructor
  · intro hm p hpsel
    rcases runCycle_branches w inp s0 with ⟨q, hq, hre⟩ | ⟨hq, hd, hre⟩ | ⟨hq, hd, hre⟩
    · rw [hre]
      have hemb := renderStage_embed w inp s0 (pickSource w inp) q [] hm
      constructor
      · rw [hemb.1]
        cases hs : s0.static_server with
        | none => rw [hs]
        | some sid => rfl
      · intro sid hsid
        rw [hemb.1, hemb.2.1, hsid]
        exact ⟨rfl, by unfold stopEvtsOf; rw [hsid]⟩
    · rw [hre]
      have hemb := renderStage_embed w inp s0
        { fs := (pickSource w inp).fs
          source := .defaultSrc
          htmlPath := some (w.scriptDir ++ [defaultFileName])
          htmlName := some defaultFileName
          htmlBytes := w.fs.fileContent (w.scriptDir ++ [defaultFileName])
          warnings := (pickSource w inp).warnings
          errors := (pickSource w inp).errors }
        (w.scriptDir ++ [defaultFileName])
        ["Loaded default repository HTML: corr_beta_MULTI_REPORT.html"] hm
      constructor
      · rw [hemb.1]
        cases hs : s0.static_server with
        | none => rw [hs]
        | some sid => rfl
      · intro sid hsid
        rw [hemb.1, hemb.2.1, hsid]
        exact ⟨rfl, by unfold stopEvtsOf; rw [hsid]⟩
    · rw [hre] at hpsel
      cases hpsel
  · intro hnone
    rcases runCycle_branches w inp s0 with ⟨q, hq, hre⟩ | ⟨hq, hd, hre⟩ | ⟨hq, hd, hre⟩
    · rw [hre] at hnone
      rw [renderStage_selected w inp s0 (pickSource w inp) q []] at hnone
      exact Option.noConfusion hnone
    · rw [hre] at hnone
      rw [renderStage_selected w inp s0 _ (w.scriptDir ++ [defaultFileName]) _] at hnone
      exact Option.noConfusion hnone
    · rw [hre]
      exact ⟨rfl, rfl, rfl⟩

/-- Witness for Claim C3 (amended) at a concrete Embed-mode cycle with
a recorded server: the cycle clears the session and stops the server. -/
theorem C3_embed_teardown_or_stop_witness :
    (runCycle wDemo inpEmbed sessSite).session = ⟨none, none, none⟩ ∧
    (runCycle wDemo inpEmbed sessSite).events = [SrvEvent.stop 3] :=
  ((C3_embed_teardown_or_stop wDemo inpEmbed sessSite).1 (by decide)
    ["tmp", "site", "a.html"] (by decide)).2 3 rfl

/-- Server-mode input with a typed path that resolves to no existing
file. -/
def inpServerBad : Input :=
  { uploaded := none
    path_str := "missing.html"
    mode := "Static server (handles assets)"
    iframe_h := 900
    dark_bg := true
    show_download := true }

/-- Claim C2 (counterexample): with the bundled default present, a
cycle with a typed path to a non-existent file still shows the warning
but then selects the bundled default document and starts a server for
it, refuting that no document is selected and no server is started. -/
theorem C2_counterexample :
    "Path does not exist or is not a file." ∈
        (runCycle wDemo inpServerBad initSession).warnings ∧
    (runCycle wDemo inpServerBad initSession).selected =
        some ["app", "corr_beta_MULTI_REPORT.html"] ∧
    (runCycle wDemo inpServerBad initSession).events = [SrvEvent.start 7] := by
  decide

/-- Claim C2 (amended): a typed path that does not name an existing
regular file yields a user-visible warning, no exception, and no
document from the typed path; when the bundled default file is absent,
no document is selected, no server event fires, the session is
untouched and the cycle stops, but when the default exists it is
selected instead. -/
theorem C2_typed_path_failure (w : World) (inp : Input) (s0 : Session)
    (hup : inp.uploaded = none)
    (hne : pyStrip inp.path_str ≠ "")
    (hbad : (w.fs.existsAt (w.resolve inp.path_str) &&
             w.fs.isFileAt (w.resolve inp.path_str)) = false) :
    "Path does not exist or is not a file." ∈ (runCycle w inp s0).warnings ∧
    (runCycle w inp s0).source ≠ SourceTag.typedSrc ∧
    (w.fs.existsAt (w.scriptDir ++ [defaultFileName]) = false →
      (runCycle w inp s0).selected = none ∧
      (runCycle w inp s0).events = [] ∧
      (runCycle w inp s0).session = s0 ∧
      (runCycle w inp s0).outcome = Outcome.stopped) ∧
    (w.fs.existsAt (w.scriptDir ++ [defaultFileName]) = true →
      (runCycle w inp s0).selected = some (w.scriptDir ++ [defaultFileName]) ∧
      (runCycle w inp s0).source = SourceTag.defaultSrc) := by
  have hpk := pickSource_typed_bad w inp hup hne hbad
  have hp : (pickSource w inp).htmlPath = none := by rw [hpk]
  cases hd : w.fs.existsAt (w.scriptDir ++ [defaultFileName]) with
  | false =>
    have hre := runCycle_eq_stop w inp s0 hp hd
    refine ⟨?_, ?_, ?_, ?_⟩
    · rw [hre]
      show "Path does not exist or is not a file." ∈ (pickSource w inp).warnings
      rw [hpk]
      simp
    · rw [hre]
      show (pickSource w inp).source ≠ SourceTag.typedSrc
      rw [hpk]
      simp
    · intro _
      rw [hre]
      exact ⟨rfl, rfl, rfl, rfl⟩
    · intro hcontra
      cases hcontra
  | true =>
    have hre := runCycle_eq_default w inp s0 hp hd
    refine ⟨?_, ?_, ?_, ?_⟩
    · rw [hre, (renderStage_fields w inp s0 _ _ _).2.2.2.2.1]
      show "Path does not exist or is not a file." ∈ (pickSource w inp).warnings
      rw [hpk]
      simp
    · rw [hre, (renderStage_fields w inp s0 _ _ _).2.1]
      simp
    · intro hcontra
      cases hcontra
    · intro _
      rw [hre]
      exact ⟨renderStage_selected _ _ _ _ _ _,
        by rw [(renderStage_fields w inp s0 _ _ _).2.1]⟩

/-- Witness for Claim C2 (amended) at a concrete cycle where the
bundled default is absent: warning shown, nothing selected, no server
event, run stopped. -/
theorem C2_typed_path_failure_witness :
    "Path does not exist or is not a file." ∈
        (runCycle wBare inpServerBad initSession).warnings ∧
    (runCycle wBare inpServerBad initSession).selected = none ∧
    (runCycle wBare inpServerBad initSession).events = [] ∧
    (runCycle wBare inpServerBad initSession).outcome = Outcome.stopped := by
  have h := C2_typed_path_failure wBare inpServerBad initSession rfl
    (by decide) (by decide)
  have h3 := h.2.2.1 (by decide)
  exact ⟨h.1, h3.1, h3.2.1, h3.2.2.2⟩
